import Mathlib

/-!
Verification development for the Gaposa cover integration
(custom_components/gaposa: cover.py, config_flow.py, const.py).

The per-cover controller state (class GaposaCover) is embedded as an
explicit record; each coroutine of cover.py becomes a state-transition
function, with the two background tasks of a timed movement
(_track_position_realtime and _stop_after_delay) represented by the
optional task slots they occupy and by step functions that model one
tick of the interpolation loop and the firing of the delayed stop.
Times and Python floats are embedded as rationals; Python int() is
truncation toward zero.  The options dict of the config entry is
embedded per cover as the three keys cover.py reads (entity_id ++
_open, entity_id ++ _close, and the bare legacy entity_id key), each
holding an optional Python value with its truthiness and its
isinstance-(int, float) status.
-/

/-- DEFAULT_OPEN_TIME from const.py (seconds). -/
def DEFAULT_OPEN_TIME : ℚ := 30

/-- DEFAULT_CLOSE_TIME from const.py (seconds). -/
def DEFAULT_CLOSE_TIME : ℚ := 25

/-- Python int() applied to a float: truncation toward zero. -/
def pyInt (q : ℚ) : ℤ := if 0 ≤ q then ⌊q⌋ else ⌈q⌉

/-- A value stored in the config entry options: a number (Python int or
float, bool folded in as its numeric value) or some other object carrying
only its truthiness. -/
inductive PyVal where
  | num (q : ℚ)
  | other (truthy : Bool)
deriving DecidableEq

/-- Python truthiness of a stored value (a number is falsy exactly when 0). -/
def pyTruthy : PyVal → Bool
  | .num q => decide (q ≠ 0)
  | .other t => t

/-- isinstance(v, (int, float)) for a stored value. -/
def isNumeric : PyVal → Bool
  | .num _ => true
  | .other _ => false

/-- The numeric content of a stored value (unused branches irrelevant:
isNumeric gates every use). -/
def storedSeconds : PyVal → ℚ
  | .num q => q
  | .other _ => 0

/-- The validity chain of _load_calibration_data:
stored and isinstance(stored, (int, float)) and stored > 0.
Returns the accepted travel time, none when the chain fails or the key
is absent. -/
def validStored : Option PyVal → Option ℚ
  | none => none
  | some v =>
      if pyTruthy v && isNumeric v && decide (0 < storedSeconds v) then
        some (storedSeconds v)
      else none

/-- The slice of config_entry.options that _load_calibration_data reads
for one cover: the entity_id ++ _open key, the entity_id ++ _close key,
and the bare legacy entity_id key.  hasOptions is the truthiness of the
whole options dict. -/
structure CalOptions where
  hasOptions : Bool
  openEntry : Option PyVal
  closeEntry : Option PyVal
  legacyEntry : Option PyVal
deriving DecidableEq

/-- Result of _load_calibration_data: the four fields it assigns. -/
structure CalResult where
  openTime : ℚ
  closeTime : ℚ
  openCalibrated : Bool
  closeCalibrated : Bool
deriving DecidableEq

/-- Embedding of GaposaCover._load_calibration_data (cover.py 122-168):
per-direction values are accepted when truthy, numeric and strictly
positive, otherwise the direction falls back to its default and is
flagged uncalibrated; when neither direction was accepted, a valid
legacy single travel time overrides both times (close discounted by
0.85) while the calibrated flags stay false. -/
def loadCalibrationData (opts : CalOptions) : CalResult :=
  if opts.hasOptions then
    let openLoaded := validStored opts.openEntry
    let closeLoaded := validStored opts.closeEntry
    let base : CalResult :=
      { openTime := openLoaded.getD DEFAULT_OPEN_TIME
        closeTime := closeLoaded.getD DEFAULT_CLOSE_TIME
        openCalibrated := openLoaded.isSome
        closeCalibrated := closeLoaded.isSome }
    if !base.openCalibrated && !base.closeCalibrated then
      match validStored opts.legacyEntry with
      | some t => { base with openTime := t, closeTime := t * (17 / 20) }
      | none => base
    else base
  else
    { openTime := DEFAULT_OPEN_TIME, closeTime := DEFAULT_CLOSE_TIME
      openCalibrated := false, closeCalibrated := false }

/-- Parameters captured by the _track_position_realtime task at creation:
the loop time at task start and the total_time argument. -/
structure TrackTask where
  startTime : ℚ
  totalTime : ℚ
deriving DecidableEq

/-- The per-cover state of GaposaCover: the published attributes, the
loaded calibration fields, the movement-session instance variables, and
the two optional background-task slots.  movementTask holds the delay
of a pending _stop_after_delay task; trackingTask holds the captured
parameters of a live _track_position_realtime task.  A slot is none
when the task is absent, done or cancelled, so task and not task.done()
is exactly isSome. -/
structure CoverState where
  position : Option ℤ
  isClosed : Option Bool
  isOpening : Bool
  isClosing : Bool
  available : Bool
  openTimeOpt : Option ℚ
  closeTimeOpt : Option ℚ
  openCalibrated : Bool
  closeCalibrated : Bool
  movementTask : Option ℚ
  trackingTask : Option TrackTask
  targetPosition : Option ℤ
  startPosition : Option ℤ
  movementStartTime : Option ℚ
  lastControlTime : Option ℚ
deriving DecidableEq

/-- A cover as built by GaposaCover.__init__ before any update: no
position, no tasks, no calibration loaded, no control timestamp. -/
def initialCover : CoverState :=
  { position := none, isClosed := none, isOpening := false, isClosing := false
    available := false, openTimeOpt := none, closeTimeOpt := none
    openCalibrated := false, closeCalibrated := false
    movementTask := none, trackingTask := none
    targetPosition := none, startPosition := none
    movementStartTime := none, lastControlTime := none }

/-- Writing the fields assigned by _load_calibration_data into the cover. -/
def applyCalibration (s : CoverState) (r : CalResult) : CoverState :=
  { s with openTimeOpt := some r.openTime, closeTimeOpt := some r.closeTime
           openCalibrated := r.openCalibrated, closeCalibrated := r.closeCalibrated }

/-- The open_time property: self._open_time or DEFAULT_OPEN_TIME
(Python or: the stored value unless falsy). -/
def coverOpenTime (s : CoverState) : ℚ :=
  match s.openTimeOpt with
  | some t => if t ≠ 0 then t else DEFAULT_OPEN_TIME
  | none => DEFAULT_OPEN_TIME

/-- The close_time property: self._close_time or DEFAULT_CLOSE_TIME. -/
def coverCloseTime (s : CoverState) : ℚ :=
  match s.closeTimeOpt with
  | some t => if t ≠ 0 then t else DEFAULT_CLOSE_TIME
  | none => DEFAULT_CLOSE_TIME

/-- Embedding of GaposaCover._update_attrs (cover.py 235-290) applied to
one coordinator snapshot, where percent is motor_data.percent when the
attribute exists.  now is time.time() at evaluation. -/
def updateAttrs (s : CoverState) (percent : Option ℤ) (now : ℚ) : CoverState :=
  let movementActive := s.movementTask.isSome
  let s1 := if movementActive then s else { s with isOpening := false, isClosing := false }
  match percent with
  | some pos =>
      let graceActive : Bool :=
        match s1.lastControlTime with
        | some t => decide (t ≠ 0) && decide (now - t < 30)
        | none => false
      if movementActive || graceActive then
        { s1 with available := true }
      else
        { s1 with position := some pos, isClosed := some (decide (pos < 5))
                  available := true }
  | none =>
      if movementActive then s1
      else { s1 with position := none, isClosed := none }

/-- Embedding of GaposaCover._handle_coordinator_update (cover.py
207-233) for a snapshot that matches this cover's motor id: while a
calculated movement is in flight, only availability is touched;
otherwise the snapshot goes through _update_attrs. -/
def handleCoordinatorUpdate (s : CoverState) (percent : Option ℤ) (now : ℚ) : CoverState :=
  if s.movementTask.isSome then { s with available := true }
  else updateAttrs s percent now

/-- Embedding of async_open_cover (cover.py 295-321), success path: the
pending delayed-stop task is cancelled (its CancelledError handler
clears both direction flags, then the optimistic update below runs);
the position-tracking task slot is not touched. -/
def openCover (s : CoverState) : CoverState :=
  { s with movementTask := none
           isOpening := true, isClosing := false, isClosed := some false }

/-- Embedding of async_close_cover (cover.py 323-349), success path. -/
def closeCover (s : CoverState) : CoverState :=
  { s with movementTask := none
           isClosing := true, isOpening := false, isClosed := some true }

/-- Embedding of async_stop_cover (cover.py 351-377), success path: the
delayed-stop task is cancelled, both direction flags are cleared, the
numeric position is left as it is; the tracking task slot is not
touched. -/
def stopCover (s : CoverState) : CoverState :=
  { s with movementTask := none, isOpening := false, isClosing := false }

/-- Embedding of _cancel_movement (cover.py 463-468): cancels both the
delayed-stop task and the position-tracking task. -/
def cancelMovement (s : CoverState) : CoverState :=
  { s with movementTask := none, trackingTask := none }

/-- current_position at entry of async_set_cover_position:
self._attr_current_cover_position or 0. -/
def requestCurrent (s : CoverState) : ℤ := s.position.getD 0

/-- is_opening of async_set_cover_position: target_position > current_position. -/
def requestOpeningDir (s : CoverState) (target : ℤ) : Bool :=
  decide (requestCurrent s < target)

/-- travel_time selected by async_set_cover_position for the direction. -/
def travelTimeFor (s : CoverState) (target : ℤ) : ℚ :=
  if requestOpeningDir s target then coverOpenTime s else coverCloseTime s

/-- movement_time of async_set_cover_position:
abs(target - current) / 100.0 * travel_time. -/
def movementTimeFor (s : CoverState) (target : ℤ) : ℚ :=
  ((|target - requestCurrent s| : ℤ) : ℚ) / 100 * travelTimeFor s target

/-- Result of async_set_cover_position: the new cover state and whether
a hardware move command was issued (a movement session started). -/
structure SetPosOutcome where
  state : CoverState
  commandIssued : Bool
deriving DecidableEq

/-- Embedding of async_set_cover_position (cover.py 379-461), success
path.  now is hass.loop.time() when the session starts.  Any existing
tasks are cancelled first; a movement shorter than 0.5 s publishes the
target immediately and issues nothing; otherwise the directional
command is sent, the session variables are stored and both background
tasks are created. -/
def setCoverPosition (s : CoverState) (target : ℤ) (now : ℚ) : SetPosOutcome :=
  let opening := requestOpeningDir s target
  let s1 := cancelMovement s
  let mt := movementTimeFor s target
  if mt < 1 / 2 then
    { state := { s1 with position := some target
                         isClosed := some (decide (target ≤ 5)) }
      commandIssued := false }
  else
    { state := { s1 with
        isOpening := opening, isClosing := !opening
        targetPosition := some target, startPosition := some (requestCurrent s)
        movementStartTime := some now, isClosed := some false
        trackingTask := some ⟨now, mt⟩, movementTask := some mt }
      commandIssued := true }

/-- One iteration of the while loop of _track_position_realtime
(cover.py 470-505) evaluated at loop time now, when a tracking task is
live and the session variables are set: at elapsed >= total_time the
exact target is published and the loop ends; before that the linear
estimate is published through int() with the closed flag compared on
the raw estimate. -/
def trackStep (s : CoverState) (now : ℚ) : CoverState :=
  match s.trackingTask, s.startPosition, s.targetPosition with
  | some task, some st, some tg =>
      let elapsed := now - task.startTime
      if task.totalTime ≤ elapsed then
        { s with position := some tg, isClosed := some (decide (tg ≤ 5))
                 trackingTask := none }
      else
        let progress := elapsed / task.totalTime
        let est := (st : ℚ) + ((tg : ℚ) - (st : ℚ)) * progress
        { s with position := some (pyInt est), isClosed := some (decide (est ≤ 5)) }
  | _, _, _ => s

/-- The firing of _stop_after_delay (cover.py 507-546) at time.time() =
now, when the task is still pending: stop is sent, both direction flags
are cleared, the target is published as final position, the control
timestamp is recorded, and the tracking task is cancelled. -/
def delayedStopFire (s : CoverState) (now : ℚ) : CoverState :=
  match s.movementTask with
  | none => s
  | some _ =>
      { s with isOpening := false, isClosing := false
               position := s.targetPosition
               isClosed := s.targetPosition.map (fun t => decide (t ≤ 5))
               lastControlTime := some now
               movementTask := none, trackingTask := none }

/-- A cover 5 s into a timed movement session from position 0 toward
target 50 with a 40 s calibrated open time, hence a 20 s session
started at loop time 0: both background tasks are live and the last
interpolated publish was int(50 * 5 / 20) = 12. -/
def sessionCoverA : CoverState :=
  { position := some 12, isClosed := some false, isOpening := true, isClosing := false
    available := true, openTimeOpt := some 40, closeTimeOpt := some 34
    openCalibrated := true, closeCalibrated := true
    movementTask := some 20, trackingTask := some ⟨0, 20⟩
    targetPosition := some 50, startPosition := some 0
    movementStartTime := some 0, lastControlTime := none }


/-- An idle cover whose delayed stop recorded control time 100. -/
def graceCover : CoverState :=
  { initialCover with position := some 50, available := true, lastControlTime := some 100 }

/-- An idle cover already published at position 70. -/
def noopCover : CoverState :=
  { initialCover with position := some 70, available := true }

/-- A cover with a pending delayed stop and no control timestamp yet. -/
def bareCover : CoverState :=
  { initialCover with position := some 33, available := true, movementTask := some 7 }

/-- The direction strings open / close / both of the options flow. -/
inductive CalDirection where
  | dirOpen
  | dirClose
  | dirBoth
deriving DecidableEq

/-- The steps of the calibration options flow that a measuring run
moves through (async_step_select_calibration_direction,
async_step_start_calibration, async_step_calibration_inprogress,
async_step_calibration_complete). -/
inductive WPhase where
  | selectDirection
  | startCalibration
  | inProgress
  | complete
deriving DecidableEq

/-- The state of one calibration run of OptionsFlowHandler: the current
step, the calibration_data dict fields the run reads and writes, and
the two travel-time entries of self.options for the cover under
calibration (the entity_id ++ _open and entity_id ++ _close keys). -/
structure WizardState where
  phase : WPhase
  direction : CalDirection
  calibratingBoth : Bool
  originalDirection : CalDirection
  startTime : ℚ
  lastCalibrated : Option CalDirection
  openOpt : Option ℚ
  closeOpt : Option ℚ
deriving DecidableEq

/-- A run at the direction-selection step with nothing measured yet;
the scalar fields are written before they are read on every path the
theorems exercise. -/
def wizardInit : WizardState :=
  { phase := .selectDirection, direction := .dirOpen, calibratingBoth := false
    originalDirection := .dirOpen, startTime := 0, lastCalibrated := none
    openOpt := none, closeOpt := none }

/-- Embedding of async_step_select_calibration_direction
(config_flow.py 206-223) on submit: choosing both records
calibrating_both and starts with the open direction; a single choice
records it as the only direction. -/
def selectDirectionStep (w : WizardState) (choice : CalDirection) : WizardState :=
  if choice = .dirBoth then
    { w with calibratingBoth := true, originalDirection := .dirBoth
             direction := .dirOpen, phase := .startCalibration }
  else
    { w with calibratingBoth := false, originalDirection := choice
             direction := choice, phase := .startCalibration }

/-- Embedding of async_step_start_calibration (config_flow.py 311-356)
on a confirmed start: the cover is driven to the opposite extreme,
after the settle delay start_time := time.time() is recorded and the
directional move is issued, entering the in-progress step. -/
def startCalibrationStep (w : WizardState) (now : ℚ) : WizardState :=
  { w with startTime := now, phase := .inProgress }

/-- Embedding of async_step_calibration_inprogress (config_flow.py
392-429) on a confirmed stop at time.time() = now: the measured
travel time now - start_time is stored unconditionally under the
direction's options key; when calibrating both and the open direction
just finished, the run loops back to the start-calibration step for the
close direction, otherwise it moves to the complete step. -/
def stopCalibrationStep (w : WizardState) (now : ℚ) : WizardState :=
  let travel := now - w.startTime
  let w1 :=
    if w.direction = .dirOpen then { w with openOpt := some travel }
    else { w with closeOpt := some travel }
  let w2 := { w1 with lastCalibrated := some w1.direction }
  if w2.calibratingBoth then
    if w2.direction = .dirOpen then
      { w2 with direction := .dirClose, phase := .startCalibration }
    else
      { w2 with calibratingBoth := false, phase := .complete }
  else
    { w2 with phase := .complete }

/-- The cover state after __init__ with position pos and the
calibration fields loaded from opts by _load_calibration_data. -/
def loadedCover (opts : CalOptions) (pos : Option ℤ) : CoverState :=
  applyCalibration { initialCover with position := pos } (loadCalibrationData opts)

/-- Options holding only a legacy single travel time of 42 s. -/
def legacyOptsB : CalOptions :=
  { hasOptions := true, openEntry := none, closeEntry := none
    legacyEntry := some (.num 42) }

/-- Options holding only a legacy single travel time of 40 s. -/
def legacyOptsC : CalOptions :=
  { hasOptions := true, openEntry := none, closeEntry := none
    legacyEntry := some (.num 40) }

/-- Options with a calibrated open direction of 12 s and nothing else. -/
def calOptsW : CalOptions :=
  { hasOptions := true, openEntry := some (.num 12), closeEntry := none
    legacyEntry := none }

/-- Options with a valid open value, an invalid (zero) close value and
a legacy value. -/
def mixedOptsW : CalOptions :=
  { hasOptions := true, openEntry := some (.num 12), closeEntry := some (.num 0)
    legacyEntry := some (.num 40) }

/-- The tracking-loop body never writes the control timestamp. -/
theorem trackStep_lastControlTime (s : CoverState) (now : ℚ) :
    (trackStep s now).lastControlTime = s.lastControlTime := by
  rcases s with ⟨pos, cl, op, cls, av, ot, ct, oc, cc, mt, tt, tp, sp, mst, lct⟩
  rcases tt with _ | task <;> rcases tp with _ | tg <;> rcases sp with _ | st <;>
    simp [trackStep] <;> split <;> rfl

/-- The snapshot handler never writes the control timestamp. -/
theorem updateAttrs_lastControlTime (s : CoverState) (percent : Option ℤ) (now : ℚ) :
    (updateAttrs s percent now).lastControlTime = s.lastControlTime := by
  rcases s with ⟨pos, cl, op, cls, av, ot, ct, oc, cc, mt, tt, tp, sp, mst, lct⟩
  rcases percent with _ | p <;> rcases mt with _ | d <;> rcases lct with _ | t <;>
    simp [updateAttrs] <;> split <;> rfl

/-- The stored-value validity chain on a numeric entry reduces to
strict positivity. -/
theorem validStored_num (q : ℚ) :
    validStored (some (PyVal.num q)) = if 0 < q then some q else none := by
  by_cases h : 0 < q
  · simp [validStored, pyTruthy, isNumeric, storedSeconds, h, ne_of_gt h]
  · simp [validStored, pyTruthy, isNumeric, storedSeconds, h]

/-- A non-numeric stored entry is never accepted. -/
theorem validStored_other (b : Bool) : validStored (some (PyVal.other b)) = none := by
  simp [validStored, pyTruthy, isNumeric, storedSeconds]

/-- Any accepted stored travel time is strictly positive. -/
theorem validStored_pos (o : Option PyVal) (t : ℚ) (h : validStored o = some t) : 0 < t := by
  rcases o with _ | v
  · simp [validStored] at h
  · rcases v with q | b
    · rw [validStored_num] at h
      by_cases hq : 0 < q
      · rw [if_pos hq] at h
        cases h
        exact hq
      · rw [if_neg hq] at h
        cases h
    · rw [validStored_other] at h
      cases h

/-- The open_time property returns the stored positive value as is. -/
theorem coverOpenTime_of_pos (s : CoverState) (t : ℚ) (h : s.openTimeOpt = some t)
    (hp : 0 < t) : coverOpenTime s = t := by
  simp [coverOpenTime, h, hp.ne']

/-- The close_time property returns the stored positive value as is. -/
theorem coverCloseTime_of_pos (s : CoverState) (t : ℚ) (h : s.closeTimeOpt = some t)
    (hp : 0 < t) : coverCloseTime s = t := by
  simp [coverCloseTime, h, hp.ne']

/-- Full case analysis of _load_calibration_data: per-direction flags
track acceptance of the per-direction entries; an accepted value is
used as is; an invalid direction falls back to its default unless both
directions are invalid and a legacy value exists, in which case the
legacy value overrides open and 0.85 of it overrides close. -/
theorem loadCalibration_spec (opts : CalOptions)
    (hwf : opts.hasOptions = false →
        opts.openEntry = none ∧ opts.closeEntry = none ∧ opts.legacyEntry = none) :
    ((loadCalibrationData opts).openCalibrated = (validStored opts.openEntry).isSome) ∧
    ((loadCalibrationData opts).closeCalibrated = (validStored opts.closeEntry).isSome) ∧
    (∀ t, validStored opts.openEntry = some t →
        (loadCalibrationData opts).openTime = t ∧ 0 < t) ∧
    (∀ t, validStored opts.closeEntry = some t →
        (loadCalibrationData opts).closeTime = t ∧ 0 < t) ∧
    (validStored opts.openEntry = none → validStored opts.legacyEntry = none →
        (loadCalibrationData opts).openTime = DEFAULT_OPEN_TIME) ∧
    (validStored opts.closeEntry = none → validStored opts.legacyEntry = none →
        (loadCalibrationData opts).closeTime = DEFAULT_CLOSE_TIME) ∧
    (validStored opts.openEntry = none → (validStored opts.closeEntry).isSome = true →
        (loadCalibrationData opts).openTime = DEFAULT_OPEN_TIME) ∧
    (validStored opts.closeEntry = none → (validStored opts.openEntry).isSome = true →
        (loadCalibrationData opts).closeTime = DEFAULT_CLOSE_TIME) ∧
    (validStored opts.openEntry = none → validStored opts.closeEntry = none →
        ∀ L, validStored opts.legacyEntry = some L →
          (loadCalibrationData opts).openTime = L ∧
          (loadCalibrationData opts).closeTime = L * (17 / 20)) := by
  by_cases hOpt : opts.hasOptions
  · rcases hO : validStored opts.openEntry with _ | tO <;>
      rcases hC : validStored opts.closeEntry with _ | tC <;>
      rcases hL : validStored opts.legacyEntry with _ | tL <;>
      refine ⟨?_, ?_, ?_, ?_, ?_, ?_, ?_, ?_, ?_⟩ <;>
      simp [loadCalibrationData, hOpt, hO, hC, hL] <;>
      first
        | (intro t ht; cases ht)
        | (intro t ht
           rcases ht with rfl
           exact validStored_pos _ _ (by assumption))
        | exact validStored_pos _ _ (by assumption)
        | simp_all
  · have h := hwf (by simpa using hOpt)
    refine ⟨?_, ?_, ?_, ?_, ?_, ?_, ?_, ?_, ?_⟩ <;>
      simp [loadCalibrationData, h.1, h.2.1, h.2.2, hOpt, validStored]

/-- C1: a later async_open_cover during an in-flight timed session does
not cancel both session tasks.  It cancels only the delayed-stop task;
the interpolation loop survives and, at its first tick past the
session duration, still executes the superseded session's final
publish, setting the position to the old target 50.  Only
_cancel_movement (the async_set_cover_position path) cancels both
tasks.  This contradicts the claimed supersession guarantee. -/
theorem openDuringSession_tracking_survives :
    (openCover sessionCoverA).movementTask = none ∧
    (openCover sessionCoverA).trackingTask = some ⟨0, 20⟩ ∧
    (trackStep (openCover sessionCoverA) 20).position = some 50 ∧
    (trackStep (openCover sessionCoverA) 20).trackingTask = none ∧
    (cancelMovement sessionCoverA).movementTask = none ∧
    (cancelMovement sessionCoverA).trackingTask = none := by
  refine ⟨rfl, rfl, ?_, ?_, rfl, rfl⟩ <;>
    simp [trackStep, openCover, sessionCoverA]

/-- C2: async_stop_cover during the 20 s session of sessionCoverA
clears both direction flags, cancels the delayed stop and leaves the
position at the last interpolated value 12 — but it does not cancel
the tracking task, which keeps interpolating (25 at 10 s) and at 20 s
advances the published position to the superseded session's target 50,
contradicting the claim that the position is never later advanced to
the target. -/
theorem stopDuringSession_tracking_advances :
    (stopCover sessionCoverA).isOpening = false ∧
    (stopCover sessionCoverA).isClosing = false ∧
    (stopCover sessionCoverA).movementTask = none ∧
    (stopCover sessionCoverA).position = some 12 ∧
    (stopCover sessionCoverA).trackingTask = some ⟨0, 20⟩ ∧
    (trackStep (stopCover sessionCoverA) 10).position = some 25 ∧
    (trackStep (stopCover sessionCoverA) 20).position = some 50 := by
  refine ⟨rfl, rfl, rfl, rfl, rfl, ?_, ?_⟩ <;>
    simp [trackStep, stopCover, sessionCoverA, pyInt] <;> norm_num

/-- C3: the snapshot policy of the coordinator-update path.  With a
movement session active the snapshot's position is discarded and only
availability is set; with no session, a snapshot strictly inside the
30 s grace window after the control timestamp leaves the position
unchanged, and a snapshot at or after the window (or with no control
timestamp recorded) is applied verbatim with closed = (position < 5). -/
theorem snapshotPolicy (s : CoverState) (p : ℤ) (now : ℚ) :
    (s.movementTask.isSome = true →
        (handleCoordinatorUpdate s (some p) now).position = s.position ∧
        (handleCoordinatorUpdate s (some p) now).available = true) ∧
    (s.movementTask = none →
      (∀ t, s.lastControlTime = some t → 0 < t → now - t < 30 →
          (handleCoordinatorUpdate s (some p) now).position = s.position) ∧
      (∀ t, s.lastControlTime = some t → 30 ≤ now - t →
          (handleCoordinatorUpdate s (some p) now).position = some p ∧
          (handleCoordinatorUpdate s (some p) now).isClosed = some (decide (p < 5))) ∧
      (s.lastControlTime = none →
          (handleCoordinatorUpdate s (some p) now).position = some p ∧
          (handleCoordinatorUpdate s (some p) now).isClosed = some (decide (p < 5)))) := by
  constructor
  · intro h
    simp [handleCoordinatorUpdate, h]
  · intro h
    refine ⟨?_, ?_, ?_⟩
    · intro t ht h0 h30
      simp [handleCoordinatorUpdate, updateAttrs, h, ht, h0.ne', h30]
    · intro t ht h30
      simp [handleCoordinatorUpdate, updateAttrs, h, ht, not_lt.mpr h30]
    · intro ht
      simp [handleCoordinatorUpdate, updateAttrs, h, ht]

/-- Witness for C3: on graceCover (controlled at 100), a snapshot with
position 80 at 110 (10 s after control) is suppressed, one at 140
(40 s after) is applied, and with a movement task active the position
is kept. -/
theorem snapshotPolicy_witness :
    (handleCoordinatorUpdate graceCover (some 80) 110).position = some 50 ∧
    (handleCoordinatorUpdate graceCover (some 80) 140).position = some 80 ∧
    (handleCoordinatorUpdate { graceCover with movementTask := some 9 } (some 80) 110).position
      = some 50 := by
  refine ⟨?_, ?_, ?_⟩
  · have h := ((snapshotPolicy graceCover 80 110).2 rfl).1 100 rfl (by norm_num) (by norm_num)
    simpa [graceCover, initialCover] using h
  · exact (((snapshotPolicy graceCover 80 140).2 rfl).2.1 100 rfl (by norm_num)).1
  · have h := ((snapshotPolicy { graceCover with movementTask := some 9 } 80 110).1 rfl).1
    simpa [graceCover, initialCover] using h

/-- C4: one tick of the interpolation loop over a session from st to tg
with duration total started at t0.  Before the duration elapses, the
published value is the int() of start + (target - start) * (elapsed /
duration) and the loop continues; at the first tick with elapsed at or
past the duration, the exact target is published with closed =
(target at most 5) and the loop terminates.  The linear formula itself
evaluates to exactly the target at elapsed = duration, so there is no
residual drift. -/
theorem interpolationExact (s : CoverState) (t0 total now : ℚ) (st tg : ℤ)
    (hTask : s.trackingTask = some ⟨t0, total⟩)
    (hSt : s.startPosition = some st) (hTg : s.targetPosition = some tg)
    (hTot : 0 < total) :
    (now - t0 < total →
        (trackStep s now).position =
          some (pyInt ((st : ℚ) + ((tg : ℚ) - (st : ℚ)) * ((now - t0) / total))) ∧
        (trackStep s now).trackingTask = s.trackingTask) ∧
    (total ≤ now - t0 →
        (trackStep s now).position = some tg ∧
        (trackStep s now).isClosed = some (decide (tg ≤ 5)) ∧
        (trackStep s now).trackingTask = none) ∧
    (st : ℚ) + ((tg : ℚ) - (st : ℚ)) * (total / total) = (tg : ℚ) := by
  rcases s with ⟨pos, cl, op, cls, av, ot, ct, oc, cc, mt, tt, tp, sp, mst, lct⟩
  simp only at hTask hSt hTg
  subst hTask hSt hTg
  refine ⟨?_, ?_, ?_⟩
  · intro h
    simp [trackStep, not_le.mpr h]
  · intro h
    simp [trackStep, h]
  · rw [div_self hTot.ne']
    ring

/-- Witness for C4: on the 0-to-50 session of sessionCoverA (duration
20 started at 0), the tick at 10 publishes 25 and the tick at 25
publishes exactly 50 and terminates the loop. -/
theorem interpolationExact_witness :
    (trackStep sessionCoverA 10).position = some 25 ∧
    (trackStep sessionCoverA 25).position = some 50 ∧
    (trackStep sessionCoverA 25).trackingTask = none ∧
    (0 : ℚ) + ((50 : ℚ) - (0 : ℚ)) * ((20 : ℚ) / 20) = 50 := by
  have h := interpolationExact sessionCoverA 0 20 25 0 50 rfl rfl rfl (by norm_num)
  have h10 := interpolationExact sessionCoverA 0 20 10 0 50 rfl rfl rfl (by norm_num)
  have hlt := (h10.1 (by norm_num)).1
  have hge := h.2.1 (by norm_num)
  refine ⟨?_, hge.1, hge.2.2, ?_⟩
  · rw [hlt]
    norm_num [pyInt]
  · norm_num

/-- Counterexample for C5: with only a legacy single travel time of
42 s stored, the open direction is uncalibrated, the request for
position 100 is an opening move, and the selected travel time is the
legacy 42 s, not the built-in default of 30 s that the claim
prescribes for an uncalibrated direction. -/
theorem requestTravelTime_cex :
    (loadedCover legacyOptsB none).openCalibrated = false ∧
    requestOpeningDir (loadedCover legacyOptsB none) 100 = true ∧
    travelTimeFor (loadedCover legacyOptsB none) 100 = 42 ∧
    ¬ travelTimeFor (loadedCover legacyOptsB none) 100 = DEFAULT_OPEN_TIME := by
  have h42 : validStored (some (PyVal.num 42)) = some 42 := by
    rw [validStored_num]
    norm_num
  have hnone : validStored none = none := rfl
  refine ⟨?_, ?_, ?_, ?_⟩ <;>
    simp [loadedCover, applyCalibration, initialCover, loadCalibrationData, legacyOptsB,
      hnone, h42, requestOpeningDir, requestCurrent, travelTimeFor, coverOpenTime,
      DEFAULT_OPEN_TIME] <;> norm_num

/-- C5 (amended): async_set_cover_position takes current = the last
published position or 0 if never known, computes opening iff target >
current, duration = abs(target - current) / 100 * the selected travel
time, and the direction's travel time is the stored calibrated value
when one was accepted; an uncalibrated direction falls back to the
built-in default (30 s open / 25 s close) except when both directions
are uncalibrated and a valid legacy single travel time L is stored, in
which case open uses L and close uses 0.85 L; in particular, with the
other direction calibrated the default is used even when a legacy
value is stored. -/
theorem requestPositionParams (opts : CalOptions) (pos : Option ℤ) (target : ℤ)
    (hwf : opts.hasOptions = false →
        opts.openEntry = none ∧ opts.closeEntry = none ∧ opts.legacyEntry = none) :
    requestCurrent (loadedCover opts pos) = pos.getD 0 ∧
    requestOpeningDir (loadedCover opts pos) target = decide (pos.getD 0 < target) ∧
    travelTimeFor (loadedCover opts pos) target =
      (if requestOpeningDir (loadedCover opts pos) target then
          coverOpenTime (loadedCover opts pos)
        else coverCloseTime (loadedCover opts pos)) ∧
    movementTimeFor (loadedCover opts pos) target =
      |(target : ℚ) - ((pos.getD 0 : ℤ) : ℚ)| / 100 *
        travelTimeFor (loadedCover opts pos) target ∧
    (∀ t, validStored opts.openEntry = some t → coverOpenTime (loadedCover opts pos) = t) ∧
    (∀ t, validStored opts.closeEntry = some t → coverCloseTime (loadedCover opts pos) = t) ∧
    (validStored opts.openEntry = none → validStored opts.legacyEntry = none →
        coverOpenTime (loadedCover opts pos) = DEFAULT_OPEN_TIME) ∧
    (validStored opts.closeEntry = none → validStored opts.legacyEntry = none →
        coverCloseTime (loadedCover opts pos) = DEFAULT_CLOSE_TIME) ∧
    (validStored opts.openEntry = none → (validStored opts.closeEntry).isSome = true →
        coverOpenTime (loadedCover opts pos) = DEFAULT_OPEN_TIME) ∧
    (validStored opts.closeEntry = none → (validStored opts.openEntry).isSome = true →
        coverCloseTime (loadedCover opts pos) = DEFAULT_CLOSE_TIME) ∧
    (validStored opts.openEntry = none → validStored opts.closeEntry = none →
        ∀ L, validStored opts.legacyEntry = some L →
          coverOpenTime (loadedCover opts pos) = L ∧
          coverCloseTime (loadedCover opts pos) = L * (17 / 20)) := by
  have h := loadCalibration_spec opts hwf
  have hoeq : (loadedCover opts pos).openTimeOpt = some ((loadCalibrationData opts).openTime) :=
    rfl
  have hceq :
      (loadedCover opts pos).closeTimeOpt = some ((loadCalibrationData opts).closeTime) := rfl
  have hcur : requestCurrent (loadedCover opts pos) = pos.getD 0 := by
    simp [requestCurrent, loadedCover, applyCalibration, initialCover]
  refine ⟨hcur, ?_, rfl, ?_, ?_, ?_, ?_, ?_, ?_, ?_, ?_⟩
  · simp [requestOpeningDir, hcur]
  · rw [movementTimeFor, hcur]
    push_cast
    ring_nf
  · intro t ht
    obtain ⟨he, hp⟩ := h.2.2.1 t ht
    exact coverOpenTime_of_pos _ t (by rw [hoeq, he]) hp
  · intro t ht
    obtain ⟨he, hp⟩ := h.2.2.2.1 t ht
    exact coverCloseTime_of_pos _ t (by rw [hceq, he]) hp
  · intro hO hL
    have he := h.2.2.2.2.1 hO hL
    exact coverOpenTime_of_pos _ _ (by rw [hoeq, he]) (by norm_num [DEFAULT_OPEN_TIME])
  · intro hC hL
    have he := h.2.2.2.2.2.1 hC hL
    exact coverCloseTime_of_pos _ _ (by rw [hceq, he]) (by norm_num [DEFAULT_CLOSE_TIME])
  · intro hO hC
    have he := h.2.2.2.2.2.2.1 hO hC
    exact coverOpenTime_of_pos _ _ (by rw [hoeq, he]) (by norm_num [DEFAULT_OPEN_TIME])
  · intro hC hO
    have he := h.2.2.2.2.2.2.2.1 hC hO
    exact coverCloseTime_of_pos _ _ (by rw [hceq, he]) (by norm_num [DEFAULT_CLOSE_TIME])
  · intro hO hC L hL
    obtain ⟨heO, heC⟩ := h.2.2.2.2.2.2.2.2 hO hC L hL
    have hLpos : 0 < L := validStored_pos _ _ hL
    constructor
    · exact coverOpenTime_of_pos _ _ (by rw [hoeq, heO]) hLpos
    · exact coverCloseTime_of_pos _ _ (by rw [hceq, heC]) (by positivity)

/-- Witness for C5: with a calibrated 12 s open time and nothing else
stored, a request from position 40 to 10 is a closing move using the
default 25 s close time, with duration 30 / 100 * 25 = 7.5 s. -/
theorem requestPositionParams_witness :
    requestOpeningDir (loadedCover calOptsW (some 40)) 10 = false ∧
    coverOpenTime (loadedCover calOptsW (some 40)) = 12 ∧
    coverCloseTime (loadedCover calOptsW (some 40)) = DEFAULT_CLOSE_TIME ∧
    movementTimeFor (loadedCover calOptsW (some 40)) 10 = 15 / 2 := by
  have v12 : validStored calOptsW.openEntry = some 12 := by
    show validStored (some (PyVal.num 12)) = some 12
    rw [validStored_num]
    norm_num
  have vC : validStored calOptsW.closeEntry = none := rfl
  have vL : validStored calOptsW.legacyEntry = none := rfl
  have h := requestPositionParams calOptsW (some 40) 10 (by intro hh; simp [calOptsW] at hh)
  have hdir : requestOpeningDir (loadedCover calOptsW (some 40)) 10 = false := by
    rw [h.2.1]
    norm_num
  have hopen := h.2.2.2.2.1 12 v12
  have hclose := h.2.2.2.2.2.2.2.1 vC vL
  refine ⟨hdir, hopen, hclose, ?_⟩
  rw [h.2.2.2.1, h.2.2.1, hdir]
  simp [hclose, DEFAULT_CLOSE_TIME]
  norm_num

/-- C6: when the computed movement time is under 0.5 s,
async_set_cover_position publishes the target immediately with closed
= (target at most 5), issues no command and leaves no session task
pending; and a request for the position already published computes a
movement time of exactly 0, hence is such a no-op. -/
theorem smallMovementNoop (s : CoverState) (target : ℤ) (now : ℚ) :
    (movementTimeFor s target < 1 / 2 →
        (setCoverPosition s target now).commandIssued = false ∧
        (setCoverPosition s target now).state.position = some target ∧
        (setCoverPosition s target now).state.isClosed = some (decide (target ≤ 5)) ∧
        (setCoverPosition s target now).state.movementTask = none ∧
        (setCoverPosition s target now).state.trackingTask = none) ∧
    (s.position = some target →
        movementTimeFor s target = 0 ∧ movementTimeFor s target < 1 / 2) := by
  constructor
  · intro h
    simp only [setCoverPosition]
    rw [if_pos h]
    simp [cancelMovement]
  · intro h
    have h0 : movementTimeFor s target = 0 := by
      simp [movementTimeFor, requestCurrent, h]
    exact ⟨h0, by rw [h0]; norm_num⟩

/-- Witness for C6: requesting position 70 on a cover already at 70
computes a zero duration and publishes without issuing a command. -/
theorem smallMovementNoop_witness :
    movementTimeFor noopCover 70 = 0 ∧
    (setCoverPosition noopCover 70 3).commandIssued = false ∧
    (setCoverPosition noopCover 70 3).state.position = some 70 ∧
    (setCoverPosition noopCover 70 3).state.trackingTask = none := by
  have h := smallMovementNoop noopCover 70 3
  have h0 := h.2 rfl
  have h1 := h.1 h0.2
  exact ⟨h0.1, h1.1, h1.2.1, h1.2.2.2.2⟩

/-- C7: a calibration run started as both measures open first; the
first confirmed stop stores the open measurement and loops back to the
start-calibration step for the close direction (not to complete); the
second confirmed stop stores the close measurement, keeps the open
entry, and reaches the complete step — the only transition to complete
in the run.  With each stop after its start, both stored values are
positive. -/
theorem calibrateBothRun (w : WizardState) (t0 t1 t2 t3 : ℚ)
    (hFirst : t0 < t1) (hSecond : t2 < t3) :
    (selectDirectionStep w .dirBoth).direction = .dirOpen ∧
    (startCalibrationStep (selectDirectionStep w .dirBoth) t0).phase = .inProgress ∧
    (stopCalibrationStep (startCalibrationStep (selectDirectionStep w .dirBoth) t0) t1).phase
      = .startCalibration ∧
    (stopCalibrationStep (startCalibrationStep (selectDirectionStep w .dirBoth) t0) t1).direction
      = .dirClose ∧
    (stopCalibrationStep (startCalibrationStep (selectDirectionStep w .dirBoth) t0) t1).openOpt
      = some (t1 - t0) ∧
    (startCalibrationStep
        (stopCalibrationStep (startCalibrationStep (selectDirectionStep w .dirBoth) t0) t1)
        t2).phase = .inProgress ∧
    (stopCalibrationStep
        (startCalibrationStep
          (stopCalibrationStep (startCalibrationStep (selectDirectionStep w .dirBoth) t0) t1)
          t2) t3).phase = .complete ∧
    (stopCalibrationStep
        (startCalibrationStep
          (stopCalibrationStep (startCalibrationStep (selectDirectionStep w .dirBoth) t0) t1)
          t2) t3).openOpt = some (t1 - t0) ∧
    (stopCalibrationStep
        (startCalibrationStep
          (stopCalibrationStep (startCalibrationStep (selectDirectionStep w .dirBoth) t0) t1)
          t2) t3).closeOpt = some (t3 - t2) ∧
    0 < t1 - t0 ∧ 0 < t3 - t2 := by
  refine ⟨?_, ?_, ?_, ?_, ?_, ?_, ?_, ?_, ?_, sub_pos.mpr hFirst, sub_pos.mpr hSecond⟩ <;>
    simp [selectDirectionStep, startCalibrationStep, stopCalibrationStep]

/-- Witness for C7: a both-direction run with open measured from 10 to
40 and close from 50 to 84 stores 30 s and 34 s and completes. -/
theorem calibrateBothRun_witness :
    (stopCalibrationStep
        (startCalibrationStep
          (stopCalibrationStep (startCalibrationStep (selectDirectionStep wizardInit .dirBoth) 10)
            40) 50) 84).openOpt = some 30 ∧
    (stopCalibrationStep
        (startCalibrationStep
          (stopCalibrationStep (startCalibrationStep (selectDirectionStep wizardInit .dirBoth) 10)
            40) 50) 84).closeOpt = some 34 ∧
    (stopCalibrationStep
        (startCalibrationStep
          (stopCalibrationStep (startCalibrationStep (selectDirectionStep wizardInit .dirBoth) 10)
            40) 50) 84).phase = .complete := by
  have h := calibrateBothRun wizardInit 10 40 50 84 (by norm_num) (by norm_num)
  refine ⟨?_, ?_, h.2.2.2.2.2.2.1⟩
  · rw [h.2.2.2.2.2.2.2.1]
    norm_num
  · rw [h.2.2.2.2.2.2.2.2.1]
    norm_num

/-- C8: the in-progress step persists the measured duration with no
validity guard.  A stop confirmed at the same timestamp as the start
stores a 0 s open travel time and proceeds to the complete step, and a
stop timestamped before the start stores a negative value, instead of
rejecting the measurement and prompting a retry as the claim requires. -/
theorem zeroDurationMeasurementStored :
    (stopCalibrationStep (startCalibrationStep (selectDirectionStep wizardInit .dirOpen) 100)
        100).openOpt = some 0 ∧
    (stopCalibrationStep (startCalibrationStep (selectDirectionStep wizardInit .dirOpen) 100)
        100).phase = .complete ∧
    (stopCalibrationStep (startCalibrationStep (selectDirectionStep wizardInit .dirOpen) 100)
        99).openOpt = some (-1) := by
  refine ⟨?_, ?_, ?_⟩ <;>
    simp [selectDirectionStep, startCalibrationStep, stopCalibrationStep, wizardInit] <;>
    norm_num

/-- C9: the control timestamp _last_position_control_time is preserved
by async_open_cover, async_close_cover, async_stop_cover,
async_set_cover_position, the tracking tick and the snapshot handler,
and is written (to the current time) exactly when the pending delayed
stop fires; consequently, after a bare open / close / stop with no
control timestamp recorded, the next snapshot's position is applied
with no 30 s suppression. -/
theorem lastControlFrame (s : CoverState) (target : ℤ) (now : ℚ) (p : ℤ) :
    (openCover s).lastControlTime = s.lastControlTime ∧
    (closeCover s).lastControlTime = s.lastControlTime ∧
    (stopCover s).lastControlTime = s.lastControlTime ∧
    (setCoverPosition s target now).state.lastControlTime = s.lastControlTime ∧
    (trackStep s now).lastControlTime = s.lastControlTime ∧
    (updateAttrs s (some p) now).lastControlTime = s.lastControlTime ∧
    (s.movementTask.isSome = true → (delayedStopFire s now).lastControlTime = some now) ∧
    (s.lastControlTime = none →
        (handleCoordinatorUpdate (openCover s) (some p) now).position = some p ∧
        (handleCoordinatorUpdate (closeCover s) (some p) now).position = some p ∧
        (handleCoordinatorUpdate (stopCover s) (some p) now).position = some p) := by
  refine ⟨rfl, rfl, rfl, ?_, trackStep_lastControlTime s now,
          updateAttrs_lastControlTime s (some p) now, ?_, ?_⟩
  · unfold setCoverPosition cancelMovement
    dsimp only
    split <;> rfl
  · intro h
    rcases hmt : s.movementTask with _ | d
    · rw [hmt] at h
      simp at h
    · simp [delayedStopFire, hmt]
  · intro h
    refine ⟨?_, ?_, ?_⟩ <;>
      simp [handleCoordinatorUpdate, updateAttrs, openCover, closeCover, stopCover, h]

/-- Witness for C9: the commands on bareCover (pending delayed stop,
no control timestamp) keep the timestamp at none, the delayed stop
firing at 500 records it, and a snapshot right after a bare open or
stop is applied. -/
theorem lastControlFrame_witness :
    (openCover bareCover).lastControlTime = none ∧
    (stopCover bareCover).lastControlTime = none ∧
    (delayedStopFire bareCover 500).lastControlTime = some 500 ∧
    (handleCoordinatorUpdate (openCover bareCover) (some 60) 500).position = some 60 ∧
    (handleCoordinatorUpdate (stopCover bareCover) (some 60) 500).position = some 60 := by
  have h := lastControlFrame bareCover 80 500 60
  have h7 := h.2.2.2.2.2.2.1 rfl
  have h8 := h.2.2.2.2.2.2.2 rfl
  exact ⟨h.1, h.2.2.1, h7, h8.1, h8.2.2⟩

/-- Counterexample for C10: with both per-direction entries absent and
a legacy single travel time of 40 s stored, _load_calibration_data
reports both directions uncalibrated but uses 40 s for open and 34 s
for close, not the built-in defaults of 30 s and 25 s the claim
prescribes for absent per-direction values. -/
theorem legacyLoad_cex :
    legacyOptsC.openEntry = none ∧
    (loadCalibrationData legacyOptsC).openCalibrated = false ∧
    (loadCalibrationData legacyOptsC).closeCalibrated = false ∧
    (loadCalibrationData legacyOptsC).openTime = 40 ∧
    (loadCalibrationData legacyOptsC).closeTime = 34 ∧
    ¬ (loadCalibrationData legacyOptsC).openTime = DEFAULT_OPEN_TIME ∧
    ¬ (loadCalibrationData legacyOptsC).closeTime = DEFAULT_CLOSE_TIME := by
  have h40 : validStored (some (PyVal.num 40)) = some 40 := by
    rw [validStored_num]
    norm_num
  have hnone : validStored none = none := rfl
  refine ⟨rfl, ?_, ?_, ?_, ?_, ?_, ?_⟩ <;>
    simp [loadCalibrationData, legacyOptsC, hnone, DEFAULT_OPEN_TIME,
      DEFAULT_CLOSE_TIME, h40] <;> norm_num

/-- C10 (amended): a direction is reported calibrated exactly when a
truthy, numeric, strictly positive value is stored for it, and an
accepted value is used as is; a direction whose stored value is
absent, non-numeric or not strictly positive falls back to the
built-in default (30 s open / 25 s close) unless both directions are
invalid and a valid legacy single travel time L is stored, in which
case open uses L and close uses 0.85 L while both directions are still
reported uncalibrated. -/
theorem loadCalibration_amended (opts : CalOptions)
    (hwf : opts.hasOptions = false →
        opts.openEntry = none ∧ opts.closeEntry = none ∧ opts.legacyEntry = none) :
    ((loadCalibrationData opts).openCalibrated = (validStored opts.openEntry).isSome) ∧
    ((loadCalibrationData opts).closeCalibrated = (validStored opts.closeEntry).isSome) ∧
    (∀ t, validStored opts.openEntry = some t →
        (loadCalibrationData opts).openTime = t ∧ 0 < t) ∧
    (∀ t, validStored opts.closeEntry = some t →
        (loadCalibrationData opts).closeTime = t ∧ 0 < t) ∧
    (validStored opts.openEntry = none → validStored opts.legacyEntry = none →
        (loadCalibrationData opts).openTime = DEFAULT_OPEN_TIME) ∧
    (validStored opts.closeEntry = none → validStored opts.legacyEntry = none →
        (loadCalibrationData opts).closeTime = DEFAULT_CLOSE_TIME) ∧
    (validStored opts.openEntry = none → (validStored opts.closeEntry).isSome = true →
        (loadCalibrationData opts).openTime = DEFAULT_OPEN_TIME) ∧
    (validStored opts.closeEntry = none → (validStored opts.openEntry).isSome = true →
        (loadCalibrationData opts).closeTime = DEFAULT_CLOSE_TIME) ∧
    (validStored opts.openEntry = none → validStored opts.closeEntry = none →
        ∀ L, validStored opts.legacyEntry = some L →
          (loadCalibrationData opts).openTime = L ∧
          (loadCalibrationData opts).closeTime = L * (17 / 20)) :=
  loadCalibration_spec opts hwf

/-- Witness for C10: a valid 12 s open entry, an invalid (zero) close
entry and a legacy entry give open calibrated at 12 s and close
uncalibrated at the default, the legacy value being ignored because
one direction was accepted. -/
theorem loadCalibration_amended_witness :
    (loadCalibrationData mixedOptsW).openCalibrated = true ∧
    (loadCalibrationData mixedOptsW).openTime = 12 ∧
    (loadCalibrationData mixedOptsW).closeCalibrated = false ∧
    (loadCalibrationData mixedOptsW).closeTime = DEFAULT_CLOSE_TIME := by
  have vO : validStored mixedOptsW.openEntry = some 12 := by
    show validStored (some (PyVal.num 12)) = some 12
    rw [validStored_num]
    norm_num
  have vC : validStored mixedOptsW.closeEntry = none := by
    show validStored (some (PyVal.num 0)) = none
    rw [validStored_num]
    norm_num
  have h := loadCalibration_amended mixedOptsW (by intro hh; simp [mixedOptsW] at hh)
  refine ⟨?_, ?_, ?_, ?_⟩
  · rw [h.1, vO]
    rfl
  · exact (h.2.2.1 12 vO).1
  · rw [h.2.1, vC]
    rfl
  · exact h.2.2.2.2.2.2.2.1 vC (by rw [vO]; rfl)
